import Mathlib

/-!
Formal model of the Kolada MCP server's API access layer: the TTL-based
read-through cache (`DataCache`, from the bundled source in
scripts/prepare-mcp-submission.sh), the rate-limited retrying HTTP client
(`KoladaClient`, src/api/client.ts), and the configuration constants
(src/config/constants.ts).

Modelling conventions.

Time is `Int` (JavaScript `Date.now()` millisecond values).  A JavaScript
value of payload type `α` that may be `null` is modelled as `Option α`,
with `none` standing for `null`; this deliberately preserves JavaScript's
conflation of "absent" and "stored null" in `DataCache.get`, which returns
`null` both on a miss and when the cached datum is itself `null`.

Mutation is explicit state passing: each method of the `DataCache` class
takes the receiver and returns the updated receiver.  A JavaScript `Map` is
modelled as an insertion-ordered association list (`Map.set` overwrites an
existing key in place, keeping its position; this matches `mapSet` below).

Asynchronous producer functions are modelled by their resolved value: the
process is single-threaded and the cache claims under study concern a
single sequential caller, so a producer is just the `Option α` it resolves
to.  `getOrFetch` additionally reports, as ghost instrumentation, whether
the producer was invoked.

The HTTP stack below axios is modelled as an oracle mapping a URL and an
optional query-parameter list to the outcome axios delivers to the client
code (a parsed envelope, an axios error carrying an optional response
status, or a non-axios exception).  Upstream calls are counted as ghost
instrumentation where a claim speaks about the number of requests issued.
-/

/-! Configuration constants, from src/config/constants.ts (environment
overrides take their documented defaults). -/

def KOLADA_CONFIG.BASE_URL : String := "https://api.kolada.se/v3"

def KOLADA_CONFIG.MIN_REQUEST_INTERVAL : Int := 200

def KOLADA_CONFIG.MAX_BATCH_SIZE : Nat := 25

def ERROR_MESSAGES.API_ERROR : String := "Kolada API error"

def ERROR_MESSAGES.NETWORK_ERROR : String := "Network connection error"

/-- The default of the `DataCache` constructor parameter `defaultTTL`
(86400000 ms = 24 hours). -/
def DEFAULT_CACHE_TTL : Int := 86400000

/-! The cache (class `DataCache`). -/

/-- A cache entry: `interface CacheEntry<T> { data: T; timestamp: number; ttl: number }`.
`data` is `Option α` because the stored JavaScript value may be `null`. -/
structure CacheEntry (α : Type) where
  data : Option α
  timestamp : Int
  ttl : Int
deriving Repr, DecidableEq

/-- The `DataCache` class state: its `Map<string, CacheEntry<any>>` and the
`defaultTTL` fixed at construction. -/
structure DataCache (α : Type) where
  cache : List (String × CacheEntry α)
  defaultTTL : Int
deriving Repr, DecidableEq

/-- `new DataCache()` with the constructor default `defaultTTL = 86400000`. -/
def DataCache.init (α : Type) : DataCache α := ⟨[], DEFAULT_CACHE_TTL⟩

/-- JavaScript `Map.prototype.get`: first (unique) binding of `k`, if any. -/
def mapGet {β : Type} (m : List (String × β)) (k : String) : Option β :=
  match m with
  | [] => none
  | (k', v) :: rest => if k' = k then some v else mapGet rest k

/-- JavaScript `Map.prototype.set`: overwrite the binding of `k` in place,
or append a new binding at the end. -/
def mapSet {β : Type} (m : List (String × β)) (k : String) (v : β) : List (String × β) :=
  match m with
  | [] => [(k, v)]
  | (k', v') :: rest => if k' = k then (k', v) :: rest else (k', v') :: mapSet rest k v

/-- JavaScript `Map.prototype.delete` (the resulting map). -/
def mapDelete {β : Type} (m : List (String × β)) (k : String) : List (String × β) :=
  match m with
  | [] => []
  | (k', v') :: rest => if k' = k then rest else (k', v') :: mapDelete rest k

/-- `DataCache.get<T>(key): T | null`, at wall-clock time `now`: a missing
entry gives `null`; an entry with `now - timestamp > ttl` is deleted and
gives `null`; otherwise the stored datum is returned.  Returns the
JavaScript return value together with the updated cache state. -/
def DataCache.get {α : Type} (c : DataCache α) (key : String) (now : Int) :
    Option α × DataCache α :=
  match mapGet c.cache key with
  | none => (none, c)
  | some entry =>
    if now - entry.timestamp > entry.ttl then
      (none, ⟨mapDelete c.cache key, c.defaultTTL⟩)
    else
      (entry.data, c)

/-- The stored ttl of `DataCache.set`: the source computes
`ttl: ttl || this.defaultTTL`, so an omitted ttl and the falsy ttl `0`
both become `defaultTTL`. -/
def effectiveTTL (ttl : Option Int) (dflt : Int) : Int :=
  match ttl with
  | none => dflt
  | some t => if t = 0 then dflt else t

/-- `DataCache.set<T>(key, data, ttl?)` at wall-clock time `now`
(`timestamp: Date.now()`). -/
def DataCache.set {α : Type} (c : DataCache α) (key : String) (data : Option α)
    (ttl : Option Int) (now : Int) : DataCache α :=
  ⟨mapSet c.cache key ⟨data, now, effectiveTTL ttl c.defaultTTL⟩, c.defaultTTL⟩

/-- Result of one `getOrFetch` call: the returned JavaScript value, the
cache state afterwards, and (ghost) whether the producer was invoked. -/
structure FetchResult (α : Type) where
  value : Option α
  state : DataCache α
  invoked : Bool
deriving Repr, DecidableEq

/-- `DataCache.getOrFetch<T>(key, fetcher, ttl?)`: consult `get`; a non-null
cached value is returned without invoking the producer; otherwise the
producer's resolved value `fetcher` is stored via `set` and returned.  The
single time `now` stands for both the lookup and the store timestamp (the
producer is modelled as resolving immediately). -/
def DataCache.getOrFetch {α : Type} (c : DataCache α) (key : String)
    (fetcher : Option α) (ttl : Option Int) (now : Int) : FetchResult α :=
  match c.get key now with
  | (some v, c1) => ⟨some v, c1, false⟩
  | (none, c1) => ⟨fetcher, c1.set key fetcher ttl now, true⟩

/-- `DataCache.delete(key)`. -/
def DataCache.del {α : Type} (c : DataCache α) (key : String) : DataCache α :=
  ⟨mapDelete c.cache key, c.defaultTTL⟩

/-- `DataCache.clear()`. -/
def DataCache.clearAll {α : Type} (c : DataCache α) : DataCache α :=
  ⟨[], c.defaultTTL⟩

/-- `DataCache.cleanup()`: the hourly janitor sweep; removes every entry
with `now - timestamp > ttl` and reports how many were removed. -/
def DataCache.cleanup {α : Type} (c : DataCache α) (now : Int) : DataCache α × Nat :=
  let kept := c.cache.filter (fun e => !decide (now - e.2.timestamp > e.2.ttl))
  (⟨kept, c.defaultTTL⟩, c.cache.length - kept.length)

/-! The cache key builder (`DataCache.generateKey`, static). -/

/-- `DataCache.generateKey(endpoint, params?)`: with no parameters (absent
or empty) the endpoint itself; otherwise the parameter names are sorted
ascending (JavaScript `Array.prototype.sort`'s default string order) and
the pairs `name=JSON.stringify(value)` are joined with `&` and appended to
the endpoint after `?`.  The parameter map is an association list with
pairwise-distinct names (a JavaScript object cannot repeat a key), sorted
here as pairs by name; `JSON.stringify` is an external serializer,
abstracted as `stringify`.  JavaScript compares strings by UTF-16 code
unit; the model compares by code point, which agrees on the Basic
Multilingual Plane. -/
def DataCache.generateKey {V : Type} (stringify : V → String) (endpoint : String)
    (params : Option (List (String × V))) : String :=
  match params with
  | none => endpoint
  | some ps =>
    if ps.isEmpty then endpoint
    else
      let sorted := ps.mergeSort (fun a b => decide (a.1 ≤ b.1))
      let sortedParams :=
        String.intercalate ("&") (sorted.map (fun p => p.1 ++ "=" ++ stringify p.2))
      endpoint ++ "?" ++ sortedParams

/-! The HTTP client (`KoladaClient`, src/api/client.ts). -/

/-- A Kolada API response envelope:
`interface KoladaResponse<T> { values: T[]; count: number; next_page?: string; previous_page?: string }`. -/
structure KoladaResponse (T : Type) where
  values : List T
  count : Nat
  next_page : Option String
  previous_page : Option String
deriving Repr, DecidableEq

/-- What axios delivers to the client code for one logical GET (after the
retry layer is done): a parsed envelope, an `AxiosError` carrying an
optional response status / statusText and a message, or a non-axios
exception rendered by `String(error)`. -/
inductive AxiosOutcome (T : Type) where
  | ok (resp : KoladaResponse T)
  | axiosErr (status : Option Nat) (statusText : Option String) (message : String)
  | nonAxios (err : String)
deriving Repr, DecidableEq

/-- Query parameters as passed to `axios.get(endpoint, { params })`. -/
abbrev Params : Type := List (String × String)

/-- The HTTP stack below the client: URL and optional params to outcome. -/
abbrev Oracle (T : Type) : Type := String → Option Params → AxiosOutcome T

/-- Typed errors thrown by `KoladaClient.request`'s catch block. -/
inductive RequestError where
  | apiError (msg : String)
  | networkError (msg : String)
deriving Repr, DecidableEq

/-- `error.response?.statusText || error.message`: the statusText when the
response exists and its statusText is truthy (non-empty), else the message. -/
def statusTextOrMsg (statusText : Option String) (message : String) : String :=
  match statusText with
  | none => message
  | some s => if s = "" then message else s

/-- `KoladaClient.request<T>(endpoint, params?)`: on success the parsed
envelope; on an `AxiosError` with response status 404 the empty envelope
`{ values: [], count: 0 }`; on any other `AxiosError` a thrown
`Kolada API error: ...`; on a non-axios exception a thrown
`Network connection error: ...`. -/
def KoladaClient.request {T : Type} (oracle : Oracle T) (endpoint : String)
    (params : Option Params) : Except RequestError (KoladaResponse T) :=
  match oracle endpoint params with
  | .ok resp => .ok resp
  | .axiosErr status statusText message =>
    if status = some 404 then
      .ok ⟨[], 0, none, none⟩
    else
      .error (.apiError (ERROR_MESSAGES.API_ERROR ++ (": ") ++ statusTextOrMsg statusText message))
  | .nonAxios err => .error (.networkError (ERROR_MESSAGES.NETWORK_ERROR ++ (": ") ++ err))

/-- JavaScript `s.replace(pat, '')` for a string pattern: remove the first
occurrence of `pat` from `s` (identity when `pat` does not occur or is
empty), as used on `next_page.replace(KOLADA_CONFIG.BASE_URL, '')`. -/
def dropPrefixChars : List Char → List Char → Option (List Char)
  | [], l => some l
  | _ :: _, [] => none
  | p :: ps, x :: xs => if x = p then dropPrefixChars ps xs else none

def removeFirstOcc (pat : List Char) : List Char → List Char
  | [] => []
  | x :: xs =>
    match dropPrefixChars pat (x :: xs) with
    | some rest => if pat.isEmpty then x :: xs else rest
    | none => x :: removeFirstOcc pat xs

def jsReplaceFirst (s pat : String) : String :=
  String.mk (removeFirstOcc pat.data s.data)

/-- `KoladaClient.fetchAllPages<T>` unrolled: starting from `endpoint` with
`params`, request a page; yield its `values` when non-empty; follow
`next_page` (with `BASE_URL` stripped, and without re-applying `params`)
until a page carries no `next_page`.  `fuel` bounds the number of pages
followed (the source loop runs until no next page; every theorem below
supplies enough fuel for the chain at hand).  Returns the yielded pages and
(ghost) the number of upstream requests issued. -/
def KoladaClient.fetchAllPagesAux {T : Type} (oracle : Oracle T) :
    Nat → String → Option Params → Except RequestError (List (List T) × Nat)
  | 0, _, _ => .ok ([], 0)
  | Nat.succ fuel, url, qp =>
    match KoladaClient.request oracle url qp with
    | .error e => .error e
    | .ok resp =>
      let yielded : List (List T) := if resp.values.isEmpty then [] else [resp.values]
      match resp.next_page with
      | none => .ok (yielded, 1)
      | some np =>
        match KoladaClient.fetchAllPagesAux oracle fuel (jsReplaceFirst np KOLADA_CONFIG.BASE_URL) none with
        | .error e => .error e
        | .ok (pages, n) => .ok (yielded ++ pages, n + 1)

/-- `KoladaClient.fetchAllData<T>(endpoint, params?)`: drain `fetchAllPages`
and concatenate the pages.  Returns the flattened records and (ghost) the
number of upstream requests issued. -/
def KoladaClient.fetchAllData {T : Type} (oracle : Oracle T) (fuel : Nat)
    (endpoint : String) (params : Option Params) : Except RequestError (List T × Nat) :=
  match KoladaClient.fetchAllPagesAux oracle fuel endpoint params with
  | .error e => .error e
  | .ok (pages, n) => .ok (pages.flatten, n)

/-! The batch splitter (`KoladaClient.batchRequest`). -/

/-- The chunking loop `for (let i = 0; i < ids.length; i += MAX_BATCH_SIZE)
batches.push(ids.slice(i, i + MAX_BATCH_SIZE))`, written with the list
length as structural fuel (each step consumes at least one element; the
source only ever runs it with the constant `MAX_BATCH_SIZE = 25 > 0`). -/
def chunkListAux {γ : Type} (n : Nat) : Nat → List γ → List (List γ)
  | 0, _ => []
  | _, [] => []
  | Nat.succ fuel, l => l.take n :: chunkListAux n fuel (l.drop n)

def chunkList {γ : Type} (n : Nat) (l : List γ) : List (List γ) :=
  chunkListAux n l.length l

/-- The per-batch loop of `KoladaClient.batchRequest`: one plain `request`
per batch with the batch ids joined by `,` under `idParam`, concatenating
each response's `values` in batch order.  Returns the concatenated results
and (ghost) the number of upstream requests issued. -/
def KoladaClient.batchRequestGo {T : Type} (oracle : Oracle T) (endpoint idParam : String) :
    List (List String) → Except RequestError (List T × Nat)
  | [] => .ok ([], 0)
  | b :: bs =>
    match KoladaClient.request oracle endpoint (some [(idParam, String.intercalate (",") b)]) with
    | .error e => .error e
    | .ok resp =>
      match KoladaClient.batchRequestGo oracle endpoint idParam bs with
      | .error e => .error e
      | .ok (vs, n) => .ok (resp.values ++ vs, n + 1)

/-- `KoladaClient.batchRequest<T>(endpoint, ids, idParam = 'id')`. -/
def KoladaClient.batchRequest {T : Type} (oracle : Oracle T) (endpoint : String)
    (ids : List String) (idParam : String) : Except RequestError (List T × Nat) :=
  KoladaClient.batchRequestGo oracle endpoint idParam (chunkList KOLADA_CONFIG.MAX_BATCH_SIZE ids)

/-- Modelled from the spec: the Batch Splitter of §4.6 as the spec words it,
issuing "one Flattening Fetcher call per chunk" (`fetchAllData`, which
follows next-page links) instead of the single plain `request` per chunk
that `KoladaClient.batchRequest` actually issues; used only to compare the
spec's wording against the source behaviour. -/
def batchFetchSpecGo {T : Type} (oracle : Oracle T) (fuel : Nat) (endpoint idParam : String) :
    List (List String) → Except RequestError (List T × Nat)
  | [] => .ok ([], 0)
  | b :: bs =>
    match KoladaClient.fetchAllData oracle fuel endpoint (some [(idParam, String.intercalate (",") b)]) with
    | .error e => .error e
    | .ok (vs, n) =>
      match batchFetchSpecGo oracle fuel endpoint idParam bs with
      | .error e => .error e
      | .ok (vs2, n2) => .ok (vs ++ vs2, n + n2)

def batchFetchSpec {T : Type} (oracle : Oracle T) (fuel : Nat) (endpoint : String)
    (ids : List String) (idParam : String) : Except RequestError (List T × Nat) :=
  batchFetchSpecGo oracle fuel endpoint idParam (chunkList KOLADA_CONFIG.MAX_BATCH_SIZE ids)

/-! The retry classifier.  The `KoladaClient` constructor configures
axios-retry with `retryCondition: (error) =>
axiosRetry.isNetworkOrIdempotentRequestError(error) ||
error.response?.status === 429`.  The helper is part of the axios-retry
library (an external dependency, not in this repository); it is embedded
below from that library's definition. -/

/-- The fields of an `AxiosError` consulted by the classifier: the response
status if a response was received, the Node/axios error `code`, the request
method from `error.config`, and whether `error.config` is present (always
true for errors raised by a dispatched request). -/
structure AxiosErrorModel where
  responseStatus : Option Nat
  code : Option String
  method : String
  hasConfig : Bool
deriving Repr, DecidableEq

/-- axios-retry's `IDEMPOTENT_HTTP_METHODS` = safe methods plus put/delete. -/
def IDEMPOTENT_HTTP_METHODS : List String :=
  [("get"), ("head"), ("options"), ("put"), ("delete")]

/-- axios-retry's `isRetryableError`: not a timeout (`ECONNABORTED`), and
either no response was received or the response status is 5xx. -/
def isRetryableError (e : AxiosErrorModel) : Bool :=
  (e.code != some ("ECONNABORTED")) &&
    (match e.responseStatus with
     | none => true
     | some s => decide (500 ≤ s) && decide (s ≤ 599))

/-- axios-retry's `isNetworkError`: no response received, a truthy error
code that is neither a cancellation (`ERR_CANCELED`) nor a timeout
(`ECONNABORTED`), and the code passes the library's retry-allowed check
(a denylist of non-transient codes such as DNS and TLS failures), which is
abstracted here as the parameter `retryAllowed`. -/
def isNetworkError (retryAllowed : AxiosErrorModel → Bool) (e : AxiosErrorModel) : Bool :=
  e.responseStatus.isNone && e.code.isSome &&
    (e.code != some ("ERR_CANCELED")) && (e.code != some ("ECONNABORTED")) &&
    retryAllowed e

/-- axios-retry's `isIdempotentRequestError`: the error has a request
config, is retryable, and the request method is idempotent. -/
def isIdempotentRequestError (e : AxiosErrorModel) : Bool :=
  e.hasConfig && isRetryableError e && IDEMPOTENT_HTTP_METHODS.contains e.method

def isNetworkOrIdempotentRequestError (retryAllowed : AxiosErrorModel → Bool)
    (e : AxiosErrorModel) : Bool :=
  isNetworkError retryAllowed e || isIdempotentRequestError e

/-- The `retryCondition` installed by the `KoladaClient` constructor. -/
def retryCondition (retryAllowed : AxiosErrorModel → Bool) (e : AxiosErrorModel) : Bool :=
  isNetworkOrIdempotentRequestError retryAllowed e || (e.responseStatus == some 429)

/-- The retry classification as the spec words it (§4.2): network-level
failure (no HTTP response: connection refused, timeout) or HTTP 429 is
retryable, every other HTTP status is not; stated as a predicate only to
compare with `retryCondition`. -/
def specRetryable (e : AxiosErrorModel) : Bool :=
  e.responseStatus.isNone || (e.responseStatus == some 429)

/-! The rate limiter.  The `KoladaClient` constructor creates
`new Bottleneck({ maxConcurrent: 1, minTime: KOLADA_CONFIG.MIN_REQUEST_INTERVAL })`;
the Bottleneck library is an external dependency whose code is not in the
repository. -/

/-- Modelled from the spec: the Rate Limiter contract of §4.1 for the
Bottleneck instance as configured in the source (FIFO queue,
`maxConcurrent: 1`, `minTime`): tasks start in submission order, each no
earlier than its submission time and no earlier than `minTime` after the
previous task's start.  `earliest` is the earliest start the previous task
permits. -/
def limiterStartsFrom (minTime : Int) : Int → List Int → List Int
  | _, [] => []
  | earliest, s :: rest =>
    let st := max s earliest
    st :: limiterStartsFrom minTime (st + minTime) rest

/-- Start times of a FIFO queue of tasks with nondecreasing submission
times `subs`; the first task starts at its submission time. -/
def limiterSchedule (minTime : Int) (subs : List Int) : List Int :=
  match subs with
  | [] => []
  | s :: rest => s :: limiterStartsFrom minTime (s + minTime) rest

/-! Mocked upstream sources used to exercise the client. -/

/-- A finite chain of successful pages served by `oracle` starting at
`url`/`qp`: each page is what `oracle` answers there, and each page's
`next_page` (with `BASE_URL` stripped, no params) leads to the next, the
last page carrying none. -/
inductive PageChain {T : Type} (oracle : Oracle T) :
    String → Option Params → List (KoladaResponse T) → Prop where
  | last (url : String) (qp : Option Params) (r : KoladaResponse T)
      (hr : oracle url qp = .ok r) (hn : r.next_page = none) :
      PageChain oracle url qp [r]
  | step (url : String) (qp : Option Params) (r : KoladaResponse T) (np : String)
      (rs : List (KoladaResponse T))
      (hr : oracle url qp = .ok r) (hn : r.next_page = some np)
      (hrest : PageChain oracle (jsReplaceFirst np KOLADA_CONFIG.BASE_URL) none rs) :
      PageChain oracle url qp (r :: rs)

/-- Three mocked pages of 10, 10 and 5 records with next-page links. -/
def mockPageA : KoladaResponse Nat :=
  ⟨List.range 10, 25, some (KOLADA_CONFIG.BASE_URL ++ "/entity2"), none⟩

def mockPageB : KoladaResponse Nat :=
  ⟨(List.range 10).map (fun n => n + 10), 25, some (KOLADA_CONFIG.BASE_URL ++ "/entity3"), none⟩

def mockPageC : KoladaResponse Nat :=
  ⟨(List.range 5).map (fun n => n + 20), 25, none, none⟩

/-- A mocked source serving the three pages along `/entity` → `/entity2` → `/entity3`. -/
def mockOracle3 : Oracle Nat := fun url _ =>
  if url = "/entity" then .ok mockPageA
  else if url = "/entity2" then .ok mockPageB
  else if url = "/entity3" then .ok mockPageC
  else .axiosErr (some 404) none ("not found")

/-- A mocked source for one batch of one id, whose first page carries a
next-page link: the response to the batched id lookup has `values = [1]`
and points at `/n2`, which holds `values = [99]`. -/
def cexOracleBatch : Oracle Nat := fun url p =>
  if url = "/n2" then .ok ⟨[99], 2, none, none⟩
  else if p = some [(("id"), ("a"))] then .ok ⟨[1], 2, some (KOLADA_CONFIG.BASE_URL ++ "/n2"), none⟩
  else .axiosErr (some 404) none ("not found")

/-- A mocked source that answers every single-parameter request with a
one-element page echoing the joined id string, and no next page. -/
def echoOracle : Oracle String := fun _ p =>
  match p with
  | some [(_, s)] => .ok ⟨[s], 1, none, none⟩
  | _ => .ok ⟨[], 0, none, none⟩

/-- What `echoOracle` answers for a chunk joined into the id parameter. -/
def echoPage (s : String) : KoladaResponse String := ⟨[s], 1, none, none⟩

/-- 57 identifiers, for the batch-partitioning instance of the spec. -/
def ids57 : List String := List.replicate 57 ("x")

/-! Association-list map lemmas. -/

theorem mapGet_mapSet_self {β : Type} (m : List (String × β)) (k : String) (v : β) :
    mapGet (mapSet m k v) k = some v := by
  induction m with
  | nil => simp [mapSet, mapGet]
  | cons hd tl ih =>
    obtain ⟨k', v'⟩ := hd
    by_cases h : k' = k
    · simp [mapSet, mapGet, h]
    · simp [mapSet, mapGet, h, ih]

/-! Sorting lemma behind key stability: merge-sorting two permuted
parameter lists with pairwise-distinct names by name gives the same list. -/

theorem mergeSort_key_eq {V : Type} {p1 p2 : List (String × V)} (hperm : List.Perm p1 p2)
    (hnodup : (p1.map Prod.fst).Nodup) :
    p1.mergeSort (fun a b => decide (a.1 ≤ b.1)) = p2.mergeSort (fun a b => decide (a.1 ≤ b.1)) := by
  have hnodup2 : (p2.map Prod.fst).Nodup := ((hperm.map Prod.fst).nodup_iff).mp hnodup
  have htrans : ∀ a b c : String × V,
      decide (a.1 ≤ b.1) = true → decide (b.1 ≤ c.1) = true → decide (a.1 ≤ c.1) = true :=
    fun a b c hab hbc => decide_eq_true (le_trans (of_decide_eq_true hab) (of_decide_eq_true hbc))
  have htotal : ∀ a b : String × V, (decide (a.1 ≤ b.1) || decide (b.1 ≤ a.1)) = true := by
    intro a b
    rcases le_total a.1 b.1 with h | h <;> simp [h]
  have hb1 := List.sorted_mergeSort htrans htotal p1
  have hb2 := List.sorted_mergeSort htrans htotal p2
  have hperm1 : List.Perm (p1.mergeSort (fun a b => decide (a.1 ≤ b.1))) p1 :=
    List.mergeSort_perm p1 _
  have hperm2 : List.Perm (p2.mergeSort (fun a b => decide (a.1 ≤ b.1))) p2 :=
    List.mergeSort_perm p2 _
  have hn1 : ((p1.mergeSort (fun a b => decide (a.1 ≤ b.1))).map Prod.fst).Nodup :=
    ((hperm1.map Prod.fst).nodup_iff).mpr hnodup
  have hn2 : ((p2.mergeSort (fun a b => decide (a.1 ≤ b.1))).map Prod.fst).Nodup :=
    ((hperm2.map Prod.fst).nodup_iff).mpr hnodup2
  have hst1 : (p1.mergeSort (fun a b => decide (a.1 ≤ b.1))).Pairwise
      (fun a b : String × V => a.1 ≤ b.1 ∧ a.1 ≠ b.1) :=
    ((hb1.imp (fun h => of_decide_eq_true h)).and (List.pairwise_map.mp hn1)).imp
      (fun h => ⟨h.1, h.2⟩)
  have hst2 : (p2.mergeSort (fun a b => decide (a.1 ≤ b.1))).Pairwise
      (fun a b : String × V => a.1 ≤ b.1 ∧ a.1 ≠ b.1) :=
    ((hb2.imp (fun h => of_decide_eq_true h)).and (List.pairwise_map.mp hn2)).imp
      (fun h => ⟨h.1, h.2⟩)
  haveI : IsAntisymm (String × V) (fun a b : String × V => a.1 ≤ b.1 ∧ a.1 ≠ b.1) :=
    ⟨fun a b h1 h2 => absurd (le_antisymm h1.1 h2.1) h1.2⟩
  exact List.eq_of_perm_of_sorted (hperm1.trans (hperm.trans hperm2.symm)) hst1 hst2

/-- Claim C7 (confirmed): `generateKey` is a pure function of its
arguments; for any endpoint and any two parameter maps that are
permutations of each other (the same name-value pairs in any insertion
order, names pairwise distinct as in a JavaScript object), it produces the
same key; and given no parameters it returns the endpoint unchanged. -/
theorem generateKey_stable {V : Type} (stringify : V → String) (e : String)
    (p1 p2 : List (String × V)) (hperm : List.Perm p1 p2)
    (hnodup : (p1.map Prod.fst).Nodup) :
    DataCache.generateKey stringify e (some p1) = DataCache.generateKey stringify e (some p2)
      ∧ DataCache.generateKey stringify e none = e := by
  refine ⟨?_, rfl⟩
  by_cases h1 : p1.isEmpty
  · have hp1 : p1 = [] := by simpa using h1
    have hp2 : p2 = [] := by
      have h := hperm
      rw [hp1] at h
      exact h.symm.eq_nil
    rw [hp1, hp2]
  · have h2 : ¬ p2.isEmpty = true := by
      intro h
      have hp2 : p2 = [] := by simpa using h
      have hp1 : p1 = [] := by
        have hh := hperm
        rw [hp2] at hh
        exact hh.eq_nil
      exact h1 (by simp [hp1])
    simp only [DataCache.generateKey, h1, h2, if_neg, Bool.false_eq_true, if_false]
    rw [mergeSort_key_eq hperm hnodup]

/-- Witness for C7: two concrete two-entry parameter maps in opposite
insertion orders map to the same key. -/
theorem generateKey_stable_witness :
    DataCache.generateKey (fun v : String => v) ("/data")
        (some [(("b"), ("2")), (("a"), ("1"))]) =
      DataCache.generateKey (fun v : String => v) ("/data")
        (some [(("a"), ("1")), (("b"), ("2"))]) :=
  (generateKey_stable (fun v : String => v) ("/data") _ _
    (List.Perm.swap _ _ _) (by decide)).1

/-- `get` leaves the configured default TTL unchanged. -/
theorem get_defaultTTL {α : Type} (c : DataCache α) (k : String) (now : Int) :
    ((c.get k now).2).defaultTTL = c.defaultTTL := by
  cases h : mapGet c.cache k with
  | none => simp [DataCache.get, h]
  | some e =>
    simp only [DataCache.get, h]
    split <;> rfl

/-- Claim C1, amended (corrected): a read-through hit suppresses the
producer provided the produced payload is not the JavaScript `null`: if no
entry exists under `k`, `getOrFetch(k, p, t)` at time `t1` invokes the
producer, and a second call before `t` has elapsed (no intervening
delete/clear) returns the stored payload without invoking the producer
again.  (For a producer resolving to `null` the claim as stated fails, see
the counterexample: a stored `null` is indistinguishable from a miss.) -/
theorem getOrFetch_hit_suppresses_producer {α : Type} (c : DataCache α) (k : String)
    (v : α) (t t1 t2 : Int) (hmiss : mapGet c.cache k = none) (h12 : t1 ≤ t2)
    (hwithin : t2 - t1 < t) :
    (c.getOrFetch k (some v) (some t) t1).invoked = true
    ∧ (c.getOrFetch k (some v) (some t) t1).value = some v
    ∧ ((c.getOrFetch k (some v) (some t) t1).state.getOrFetch k (some v) (some t) t2).value = some v
    ∧ ((c.getOrFetch k (some v) (some t) t1).state.getOrFetch k (some v) (some t) t2).invoked = false := by
  have hget1 : c.get k t1 = (none, c) := by simp [DataCache.get, hmiss]
  have h1 : c.getOrFetch k (some v) (some t) t1 =
      ⟨some v, c.set k (some v) (some t) t1, true⟩ := by
    simp [DataCache.getOrFetch, hget1]
  have hnexp : ¬ (t2 - t1 > effectiveTTL (some t) c.defaultTTL) := by
    by_cases h0 : t = 0
    · subst h0
      omega
    · simp only [effectiveTTL, if_neg h0]
      omega
  have hm : mapGet (c.set k (some v) (some t) t1).cache k
      = some ⟨some v, t1, effectiveTTL (some t) c.defaultTTL⟩ := by
    simp only [DataCache.set]
    exact mapGet_mapSet_self _ _ _
  have hget2 : (c.set k (some v) (some t) t1).get k t2
      = (some v, c.set k (some v) (some t) t1) := by
    simp only [DataCache.get, hm]
    rw [if_neg hnexp]
  have h2 : (c.set k (some v) (some t) t1).getOrFetch k (some v) (some t) t2
      = ⟨some v, c.set k (some v) (some t) t1, false⟩ := by
    simp [DataCache.getOrFetch, hget2]
  rw [h1]
  exact ⟨rfl, rfl, by rw [h2], by rw [h2]⟩

/-- Witness for C1 (amended): a concrete non-null payload cached at time 0
is served at time 10 within its ttl 1000 without re-invoking the producer. -/
theorem getOrFetch_hit_suppresses_producer_witness :
    ((DataCache.init Nat).getOrFetch ("k") (some 7) (some 1000) 0).invoked = true
    ∧ (((DataCache.init Nat).getOrFetch ("k") (some 7) (some 1000) 0).state.getOrFetch
        ("k") (some 7) (some 1000) 10).value = some 7
    ∧ (((DataCache.init Nat).getOrFetch ("k") (some 7) (some 1000) 0).state.getOrFetch
        ("k") (some 7) (some 1000) 10).invoked = false := by
  have h := getOrFetch_hit_suppresses_producer (DataCache.init Nat) ("k") 7 1000 0 10
    (by decide) (by decide) (by decide)
  exact ⟨h.1, h.2.2.1, h.2.2.2⟩

/-- Counterexample to C1 as stated: with a producer resolving to `null`,
two `getOrFetch` calls on a fresh key within the ttl (1000 ms, calls at 0
and 10, no intervening delete/clear) invoke the producer twice, not once:
the stored `null` reads back as a miss. -/
theorem getOrFetch_null_producer_counterexample :
    ((DataCache.init Nat).getOrFetch ("k") none (some 1000) 0).invoked = true
    ∧ (((DataCache.init Nat).getOrFetch ("k") none (some 1000) 0).state.getOrFetch
        ("k") none (some 1000) 10).invoked = true := by decide

/-- Claim C2 (confirmed): freshness is checked at read time.  Whenever the
map still physically holds an entry for `k` (the janitor has not swept it)
but `now - created_at > ttl`, `get` returns the absent sentinel `null`, and
`getOrFetch` does not serve the stale payload either: it invokes the
producer and returns the producer's value. -/
theorem get_never_returns_expired {α : Type} (c : DataCache α) (k : String) (now : Int)
    (e : CacheEntry α) (hfind : mapGet c.cache k = some e)
    (hexp : now - e.timestamp > e.ttl) :
    (c.get k now).1 = none
    ∧ (∀ (p : Option α) (t : Option Int),
        (c.getOrFetch k p t now).invoked = true ∧ (c.getOrFetch k p t now).value = p) := by
  have hget : c.get k now = (none, ⟨mapDelete c.cache k, c.defaultTTL⟩) := by
    simp [DataCache.get, hfind, hexp]
  refine ⟨by rw [hget], fun p t => ?_⟩
  have h : c.getOrFetch k p t now
      = ⟨p, (⟨mapDelete c.cache k, c.defaultTTL⟩ : DataCache α).set k p t now, true⟩ := by
    simp [DataCache.getOrFetch, hget]
  exact ⟨by rw [h], by rw [h]⟩

/-- Witness for C2: an entry stored at time 0 with ttl 10 is absent at
time 11 even though the janitor never ran, and `getOrFetch` re-fetches. -/
theorem get_never_returns_expired_witness :
    ((⟨[(("k"), ⟨some 7, 0, 10⟩)], DEFAULT_CACHE_TTL⟩ : DataCache Nat).get ("k") 11).1 = none
    ∧ ((⟨[(("k"), ⟨some 7, 0, 10⟩)], DEFAULT_CACHE_TTL⟩ : DataCache Nat).getOrFetch
        ("k") (some 9) none 11).invoked = true := by
  have h := get_never_returns_expired
    (⟨[(("k"), ⟨some 7, 0, 10⟩)], DEFAULT_CACHE_TTL⟩ : DataCache Nat) ("k") 11
    ⟨some 7, 0, 10⟩ (by decide) (by decide)
  exact ⟨h.1, (h.2 (some 9) none).1⟩

/-- Claim C9 (confirmed): a stored `null` payload is indistinguishable from
a miss.  If a `getOrFetch` whose producer resolved to `null` invoked the
producer (storing `null` under `k`), then at any later time and for any ttl
`get(k)` reads back the absent sentinel and every subsequent `getOrFetch`
on `k` observes a miss and invokes its producer again. -/
theorem null_payload_indistinguishable_from_miss {α : Type} (c : DataCache α) (k : String)
    (t : Option Int) (t1 : Int)
    (hinv : (c.getOrFetch k none t t1).invoked = true) :
    ∀ (p2 : Option α) (t' : Option Int) (t2 : Int),
      (((c.getOrFetch k none t t1).state).get k t2).1 = none
      ∧ (((c.getOrFetch k none t t1).state).getOrFetch k p2 t' t2).invoked = true := by
  rcases hg : c.get k t1 with ⟨gv, c1⟩
  cases gv with
  | some v =>
    exfalso
    have h : c.getOrFetch k none t t1 = ⟨some v, c1, false⟩ := by
      simp [DataCache.getOrFetch, hg]
    rw [h] at hinv
    simp at hinv
  | none =>
    have hcall : c.getOrFetch k none t t1 = ⟨none, c1.set k none t t1, true⟩ := by
      simp [DataCache.getOrFetch, hg]
    have hm : mapGet (c1.set k none t t1).cache k
        = some ⟨none, t1, effectiveTTL t c1.defaultTTL⟩ := by
      simp only [DataCache.set]
      exact mapGet_mapSet_self _ _ _
    intro p2 t' t2
    have hfst : ((c1.set k none t t1).get k t2).1 = none := by
      simp only [DataCache.get, hm]
      split <;> rfl
    rcases hG : (c1.set k none t t1).get k t2 with ⟨gv2, gc2⟩
    have hgv2 : gv2 = none := by rw [hG] at hfst; exact hfst
    subst hgv2
    constructor
    · rw [hcall, hG]
    · have h2 : (c1.set k none t t1).getOrFetch k p2 t' t2
          = ⟨p2, gc2.set k p2 t' t2, true⟩ := by
        simp [DataCache.getOrFetch, hG]
      rw [hcall]
      rw [h2]

/-- Witness for C9: after caching a `null` payload at time 0 with ttl 1000,
a call at time 10 (well within the ttl) invokes the producer again. -/
theorem null_payload_indistinguishable_from_miss_witness :
    ((((DataCache.init Nat).getOrFetch ("k") none (some 1000) 0).state).getOrFetch
      ("k") (some 5) (some 1000) 10).invoked = true :=
  (null_payload_indistinguishable_from_miss (DataCache.init Nat) ("k") (some 1000) 0
    (by decide) (some 5) (some 1000) 10).2

/-- Claim C10 (confirmed): a falsy ttl argument silently becomes the
default.  `set(key, value, 0)` stores the entry with the cache's
`defaultTTL` (`ttl || this.defaultTTL`), not a zero-duration entry;
`getOrFetch` with ttl `0` stores its fetched value the same way on a miss;
and the constructor default is 86400000 ms (24 hours). -/
theorem set_zero_ttl_uses_default {α : Type} (c : DataCache α) (k : String)
    (v p : Option α) (now : Int) :
    mapGet ((c.set k v (some 0) now).cache) k = some ⟨v, now, c.defaultTTL⟩
    ∧ ((c.get k now).1 = none →
        mapGet (((c.getOrFetch k p (some 0) now).state).cache) k = some ⟨p, now, c.defaultTTL⟩)
    ∧ (DataCache.init α).defaultTTL = 86400000 := by
  refine ⟨?_, ?_, rfl⟩
  · have h := mapGet_mapSet_self c.cache k
      (⟨v, now, effectiveTTL (some 0) c.defaultTTL⟩ : CacheEntry α)
    simpa [DataCache.set, effectiveTTL] using h
  · intro hz
    rcases hg : c.get k now with ⟨gv, c1⟩
    have hgv : gv = none := by rw [hg] at hz; exact hz
    subst hgv
    have hcall : c.getOrFetch k p (some 0) now = ⟨p, c1.set k p (some 0) now, true⟩ := by
      simp [DataCache.getOrFetch, hg]
    have hd : c1.defaultTTL = c.defaultTTL := by
      have h := get_defaultTTL c k now
      rw [hg] at h
      exact h
    rw [hcall]
    have h := mapGet_mapSet_self c1.cache k
      (⟨p, now, effectiveTTL (some 0) c1.defaultTTL⟩ : CacheEntry α)
    simpa [DataCache.set, effectiveTTL, hd] using h

/-- Witness for C10: storing at ttl `0` through `getOrFetch` on a fresh
cache yields an entry carrying the 24-hour default ttl. -/
theorem set_zero_ttl_uses_default_witness :
    mapGet ((((DataCache.init Nat).getOrFetch ("k") (some 2) (some 0) 5).state).cache) ("k")
      = some ⟨some 2, 5, 86400000⟩ := by
  have h := set_zero_ttl_uses_default (DataCache.init Nat) ("k") (some 1) (some 2) 5
  exact h.2.1 (by decide)

/-- Claim C6 (confirmed): for every endpoint and parameter set, an upstream
HTTP 404 makes the request executor return the empty envelope
`{ values: [], count: 0 }` without raising, and every other axios error
status (any non-404 failure status, or no response at all) raises the typed
`Kolada API error` instead of returning a value. -/
theorem request_404_normalization {T : Type} (oracle : Oracle T) (e : String)
    (p : Option Params) :
    (∀ (stText : Option String) (msg : String),
        oracle e p = AxiosOutcome.axiosErr (some 404) stText msg →
        KoladaClient.request oracle e p = Except.ok (⟨[], 0, none, none⟩ : KoladaResponse T))
    ∧ (∀ (st : Option Nat) (stText : Option String) (msg : String),
        oracle e p = AxiosOutcome.axiosErr st stText msg → st ≠ some 404 →
        KoladaClient.request oracle e p = Except.error
          (RequestError.apiError
            (ERROR_MESSAGES.API_ERROR ++ (": ") ++ statusTextOrMsg stText msg))) := by
  constructor
  · intro stText msg h
    simp [KoladaClient.request, h]
  · intro st stText msg h hst
    simp [KoladaClient.request, h, hst]

/-- Witness for C6: a mocked 404 yields the empty envelope; a mocked 500
with statusText `Internal Server Error` yields the typed error. -/
theorem request_404_normalization_witness :
    KoladaClient.request
        ((fun _ _ => AxiosOutcome.axiosErr (some 404) none ("gone")) : Oracle Nat)
        ("/kpi") none = Except.ok (⟨[], 0, none, none⟩ : KoladaResponse Nat)
    ∧ KoladaClient.request
        ((fun _ _ => AxiosOutcome.axiosErr (some 500) (some ("Internal Server Error")) ("boom")) : Oracle Nat)
        ("/kpi") none = Except.error
          (RequestError.apiError (ERROR_MESSAGES.API_ERROR ++ (": ")
            ++ statusTextOrMsg (some ("Internal Server Error")) ("boom"))) :=
  ⟨(request_404_normalization
      ((fun _ _ => AxiosOutcome.axiosErr (some 404) none ("gone")) : Oracle Nat)
      ("/kpi") none).1 none ("gone") rfl,
   (request_404_normalization
      ((fun _ _ => AxiosOutcome.axiosErr (some 500) (some ("Internal Server Error")) ("boom")) : Oracle Nat)
      ("/kpi") none).2 (some 500) (some ("Internal Server Error")) ("boom") rfl (by decide)⟩

/-- Dropping the empty pages that `fetchAllPages` declines to yield does
not change the flattened result. -/
theorem flatten_filter_nonempty {γ : Type} (l : List (List γ)) :
    (l.filter (fun x => !x.isEmpty)).flatten = l.flatten := by
  induction l with
  | nil => rfl
  | cons x xs ih =>
    by_cases hx : x.isEmpty
    · have hx' : x = [] := by simpa using hx
      simp [hx', ih]
    · simp [hx, ih]

/-- The page walker along a finite chain of pages: it issues one request
per page of the chain and yields exactly the non-empty `values` lists, in
page order. -/
theorem fetchAllPagesAux_chain {T : Type} (oracle : Oracle T) {url : String}
    {qp : Option Params} {rs : List (KoladaResponse T)}
    (hchain : PageChain oracle url qp rs) :
    ∀ fuel, rs.length ≤ fuel →
      KoladaClient.fetchAllPagesAux oracle fuel url qp
        = Except.ok ((rs.map KoladaResponse.values).filter (fun l => !l.isEmpty), rs.length) := by
  induction hchain with
  | last url qp r hr hn =>
    intro fuel hfuel
    cases fuel with
    | zero => simp at hfuel
    | succ f =>
      by_cases hv : r.values.isEmpty
      · have hv' : r.values = [] := by simpa using hv
        simp [KoladaClient.fetchAllPagesAux, KoladaClient.request, hr, hn, hv']
      · simp [KoladaClient.fetchAllPagesAux, KoladaClient.request, hr, hn, hv]
  | step url qp r np rs hr hn hrest ih =>
    intro fuel hfuel
    cases fuel with
    | zero => simp at hfuel
    | succ f =>
      have hf : rs.length ≤ f := by
        simp only [List.length_cons] at hfuel
        omega
      by_cases hv : r.values.isEmpty
      · have hv' : r.values = [] := by simpa using hv
        simp [KoladaClient.fetchAllPagesAux, KoladaClient.request, hr, hn, hv', ih f hf]
      · simp [KoladaClient.fetchAllPagesAux, KoladaClient.request, hr, hn, hv, ih f hf]

/-- Claim C5 (confirmed): pagination completeness and order.  Along any
finite chain of pages (each page served by the upstream source, each
`next_page` link leading to the next page, the last page carrying none),
`fetchAllData` returns exactly the concatenation of every page's records in
page order (within-page order preserved), issuing one request per page. -/
theorem fetchAllData_pagination {T : Type} (oracle : Oracle T) (url : String)
    (qp : Option Params) (rs : List (KoladaResponse T)) (fuel : Nat)
    (hchain : PageChain oracle url qp rs) (hfuel : rs.length ≤ fuel) :
    KoladaClient.fetchAllData oracle fuel url qp
      = Except.ok ((rs.map KoladaResponse.values).flatten, rs.length) := by
  have h := fetchAllPagesAux_chain oracle hchain fuel hfuel
  simp [KoladaClient.fetchAllData, h, flatten_filter_nonempty]

/-- Witness for C5: the mocked source of 3 pages of 10/10/5 records yields
exactly the 25 records 0..24 in page order, in 3 upstream requests. -/
theorem fetchAllData_pagination_witness :
    KoladaClient.fetchAllData mockOracle3 3 ("/entity") none
      = Except.ok (List.range 25, 3) := by
  have h2 : jsReplaceFirst (KOLADA_CONFIG.BASE_URL ++ "/entity2") KOLADA_CONFIG.BASE_URL
      = "/entity2" := by decide
  have h3 : jsReplaceFirst (KOLADA_CONFIG.BASE_URL ++ "/entity3") KOLADA_CONFIG.BASE_URL
      = "/entity3" := by decide
  have hchain : PageChain mockOracle3 ("/entity") none [mockPageA, mockPageB, mockPageC] := by
    refine PageChain.step _ _ _ _ _ (by decide) rfl ?_
    rw [h2]
    refine PageChain.step _ _ _ _ _ (by decide) rfl ?_
    rw [h3]
    exact PageChain.last _ _ _ (by decide) rfl
  have h := fetchAllData_pagination mockOracle3 ("/entity") none
    [mockPageA, mockPageB, mockPageC] 3 hchain (by decide)
  rw [h]
  have hv : ((List.map KoladaResponse.values [mockPageA, mockPageB, mockPageC]).flatten,
      ([mockPageA, mockPageB, mockPageC] : List (KoladaResponse Nat)).length)
      = (List.range 25, 3) := by decide
  rw [hv]

/-- The chunking loop reassembles the input: concatenating the chunks gives
back the id list (for a positive batch size and enough fuel). -/
theorem chunkListAux_flatten {γ : Type} (n : Nat) (hn : 0 < n) :
    ∀ (fuel : Nat) (l : List γ), l.length ≤ fuel → (chunkListAux n fuel l).flatten = l := by
  intro fuel
  induction fuel with
  | zero =>
    intro l hl
    have hl' : l = [] := List.eq_nil_of_length_eq_zero (Nat.le_zero.mp hl)
    simp [hl', chunkListAux]
  | succ f ih =>
    intro l hl
    cases l with
    | nil => simp [chunkListAux]
    | cons x xs =>
      have hd : ((x :: xs).drop n).length ≤ f := by
        simp only [List.length_drop, List.length_cons] at *
        omega
      simp only [chunkListAux, List.flatten_cons, ih ((x :: xs).drop n) hd]
      exact List.take_append_drop n (x :: xs)

/-- Every chunk produced by the chunking loop has at most `n` elements. -/
theorem chunkListAux_sizes {γ : Type} (n : Nat) :
    ∀ (fuel : Nat) (l : List γ) (b : List γ), b ∈ chunkListAux n fuel l → b.length ≤ n := by
  intro fuel
  induction fuel with
  | zero =>
    intro l b hb
    simp [chunkListAux] at hb
  | succ f ih =>
    intro l b hb
    cases l with
    | nil => simp [chunkListAux] at hb
    | cons x xs =>
      simp only [chunkListAux, List.mem_cons] at hb
      rcases hb with hb | hb
      · rw [hb]
        simp [List.length_take_le]
      · exact ih ((x :: xs).drop n) b hb

/-- The per-batch loop of `batchRequest` against a source that answers
every batched id lookup successfully: one upstream request per batch, and
the concatenation of the per-batch `values` in batch order. -/
theorem batchRequestGo_ok {T : Type} (oracle : Oracle T) (g : String → KoladaResponse T)
    (endpoint idParam : String)
    (hor : ∀ s, oracle endpoint (some [(idParam, s)]) = .ok (g s)) :
    ∀ bs : List (List String),
      KoladaClient.batchRequestGo oracle endpoint idParam bs
        = Except.ok
            ((bs.map (fun b => (g (String.intercalate (",") b)).values)).flatten, bs.length) := by
  intro bs
  induction bs with
  | nil => rfl
  | cons b rest ih =>
    simp [KoladaClient.batchRequestGo, KoladaClient.request, hor, ih]

/-- Claim C4, amended (corrected): `batchRequest` partitions the ids into
contiguous chunks of at most `MAX_BATCH_SIZE`, issues one plain
single-request call per chunk with the chunk's ids joined by `,` into the
id parameter — not one fetch-all-pages call per chunk: next-page links in
chunk responses are not followed (see the counterexample) — and returns
the concatenation of the chunk responses' `values` in chunk order, with
exactly one upstream call per chunk (so 57 ids with the batch size 25 make
exactly 3 calls of sizes 25, 25 and 7, see the witness). -/
theorem batchRequest_partitioning {T : Type} (oracle : Oracle T)
    (g : String → KoladaResponse T) (endpoint idParam : String) (ids : List String)
    (hor : ∀ s, oracle endpoint (some [(idParam, s)]) = .ok (g s)) :
    KoladaClient.batchRequest oracle endpoint ids idParam
      = Except.ok
          (((chunkList KOLADA_CONFIG.MAX_BATCH_SIZE ids).map
              (fun b => (g (String.intercalate (",") b)).values)).flatten,
            (chunkList KOLADA_CONFIG.MAX_BATCH_SIZE ids).length)
    ∧ (chunkList KOLADA_CONFIG.MAX_BATCH_SIZE ids).flatten = ids
    ∧ ∀ b ∈ chunkList KOLADA_CONFIG.MAX_BATCH_SIZE ids,
        b.length ≤ KOLADA_CONFIG.MAX_BATCH_SIZE := by
  refine ⟨batchRequestGo_ok oracle g endpoint idParam hor _, ?_, ?_⟩
  · exact chunkListAux_flatten KOLADA_CONFIG.MAX_BATCH_SIZE (by decide) ids.length ids le_rfl
  · intro b hb
    exact chunkListAux_sizes KOLADA_CONFIG.MAX_BATCH_SIZE ids.length ids b hb

/-- Counterexample to C4 as stated: the claim's "one Flattening Fetcher
(fetch-all-pages) call per chunk" is not what the code does.  For one
chunk whose response carries a next-page link, `batchRequest` issues 1
upstream call and returns only the first page's records `[1]`, while the
spec-worded batch splitter (`batchFetchSpec`, one `fetchAllData` per
chunk) issues 2 calls and returns `[1, 99]`. -/
theorem batchRequest_counterexample :
    KoladaClient.batchRequest cexOracleBatch ("/data") ([("a")]) ("id")
      = Except.ok ([1], 1)
    ∧ batchFetchSpec cexOracleBatch 5 ("/data") ([("a")]) ("id")
      = Except.ok ([1, 99], 2) := by
  constructor
  · rfl
  · rfl

/-- Witness for C4 (amended): 57 identifiers with batch size 25 make
exactly 3 upstream calls over chunks of sizes 25, 25 and 7. -/
theorem batchRequest_partitioning_witness :
    KoladaClient.batchRequest echoOracle ("/data") ids57 ("id")
      = Except.ok
          (((chunkList KOLADA_CONFIG.MAX_BATCH_SIZE ids57).map
              (fun b => (echoPage (String.intercalate (",") b)).values)).flatten,
            (chunkList KOLADA_CONFIG.MAX_BATCH_SIZE ids57).length)
    ∧ (chunkList KOLADA_CONFIG.MAX_BATCH_SIZE ids57).map List.length = [25, 25, 7]
    ∧ (chunkList KOLADA_CONFIG.MAX_BATCH_SIZE ids57).length = 3 := by
  have h := batchRequest_partitioning echoOracle echoPage ("/data") ("id") ids57
    (fun s => rfl)
  exact ⟨h.1, by decide, by decide⟩

/-- Counterexample to C3 as stated: the installed `retryCondition` does not
match the spec's classification, for any retry-allowed denylist.  An HTTP
500 response to a GET request is retried by the code (axios-retry's
idempotent-request branch) although the claim says every status other than
429 is not retryable; and a timeout (`ECONNABORTED`, no response) is not
retried by the code although the claim says timeouts are retryable. -/
theorem retryCondition_counterexample :
    retryCondition (fun _ => true) ⟨some 500, none, ("get"), true⟩ = true
    ∧ specRetryable ⟨some 500, none, ("get"), true⟩ = false
    ∧ retryCondition (fun _ => true) ⟨none, some ("ECONNABORTED"), ("get"), true⟩ = false
    ∧ specRetryable ⟨none, some ("ECONNABORTED"), ("get"), true⟩ = true := by decide

/-- Claim C3, amended (corrected): the complete retry classification for a
GET request attempt with a request config (the only kind the client
issues), for any retry-allowed denylist.  If a response with status `s` was
received, the attempt is retried exactly when `s` is 5xx (and the error
code is not the timeout code) or `s` is 429 — every other HTTP status
propagates immediately.  If no response was received, the attempt is
retried exactly when the error code is not the timeout code
`ECONNABORTED`: in particular timeouts are never retried, while every
other connection-level failure — including cancellations and codes the
retry-allowed denylist would reject — is retried, because the
idempotent-request branch applies to a GET regardless of the network-error
check's exclusions. -/
theorem retryCondition_classification (retryAllowed : AxiosErrorModel → Bool) :
    (∀ (e : AxiosErrorModel) (s : Nat), e.responseStatus = some s →
        e.method = "get" → e.hasConfig = true →
        (retryCondition retryAllowed e = true ↔
          ((e.code ≠ some ("ECONNABORTED") ∧ 500 ≤ s ∧ s ≤ 599) ∨ s = 429)))
    ∧ (∀ e : AxiosErrorModel, e.responseStatus = none →
        e.method = "get" → e.hasConfig = true →
        (retryCondition retryAllowed e = true ↔ e.code ≠ some ("ECONNABORTED"))) := by
  constructor
  · intro e s hs hm hc
    simp only [retryCondition, isNetworkOrIdempotentRequestError, isNetworkError,
      isIdempotentRequestError, isRetryableError, IDEMPOTENT_HTTP_METHODS,
      hs, hm, hc, Option.isNone_some, Bool.false_and, Bool.false_or,
      Bool.true_and, List.contains_cons, Bool.and_true, Bool.or_eq_true,
      Bool.and_eq_true, bne_iff_ne, decide_eq_true_eq, beq_iff_eq,
      Option.some.injEq]
    tauto
  · intro e h1 hm hc
    simp only [retryCondition, isNetworkOrIdempotentRequestError, isNetworkError,
      isIdempotentRequestError, isRetryableError, IDEMPOTENT_HTTP_METHODS,
      h1, hm, hc, Option.isNone_none, Bool.true_and, List.contains_cons,
      Bool.and_true, Bool.or_eq_true, Bool.and_eq_true, bne_iff_ne,
      decide_eq_true_eq, beq_iff_eq]
    tauto

/-- Witness for C3 (amended): a 429 response on a GET is retried; a
cancelled no-response GET is retried even with an all-rejecting denylist
(the idempotent-request branch); a timeout without a response is not
retried. -/
theorem retryCondition_classification_witness :
    retryCondition (fun _ => true) ⟨some 429, none, ("get"), true⟩ = true
    ∧ retryCondition (fun _ => false) ⟨none, some ("ERR_CANCELED"), ("get"), true⟩ = true
    ∧ retryCondition (fun _ => true) ⟨none, some ("ECONNABORTED"), ("get"), true⟩ = false := by
  refine ⟨?_, ?_, ?_⟩
  · exact ((retryCondition_classification (fun _ => true)).1
      ⟨some 429, none, ("get"), true⟩ 429 rfl rfl rfl).mpr (Or.inr rfl)
  · exact ((retryCondition_classification (fun _ => false)).2
      ⟨none, some ("ERR_CANCELED"), ("get"), true⟩ rfl rfl rfl).mpr (by decide)
  · cases hb : retryCondition (fun _ => true) ⟨none, some ("ECONNABORTED"), ("get"), true⟩ with
    | false => rfl
    | true =>
      exact absurd (((retryCondition_classification (fun _ => true)).2
        ⟨none, some ("ECONNABORTED"), ("get"), true⟩ rfl rfl rfl).mp hb) (by simp)

/-- The `m`-th start the limiter model hands out is at least `m` intervals
after the earliest permitted start. -/
theorem limiterStartsFrom_lower (minTime : Int) :
    ∀ (l : List Int) (earliest : Int) (m : Nat), m < l.length →
      earliest + m * minTime ≤ (limiterStartsFrom minTime earliest l).getD m 0 := by
  intro l
  induction l with
  | nil =>
    intro earliest m hm
    simp at hm
  | cons s rest ih =>
    intro earliest m hm
    cases m with
    | zero =>
      simp only [limiterStartsFrom, List.getD_cons_zero, Nat.cast_zero, zero_mul, add_zero]
      exact le_max_right s earliest
    | succ m' =>
      have h := ih (max s earliest + minTime) m' (by
        simp only [List.length_cons] at hm
        omega)
      simp only [limiterStartsFrom, List.getD_cons_succ]
      have hle : earliest ≤ max s earliest := le_max_right s earliest
      have hcast : ((m' + 1 : Nat) : Int) = (m' : Int) + 1 := by push_cast; ring
      rw [hcast]
      nlinarith [h, hle]

/-- Start-to-start separation in the limiter model: the `j`-th task starts
at least `(j - i) * minTime` after the `i`-th. -/
theorem limiterStartsFrom_gap (minTime : Int) :
    ∀ (l : List Int) (earliest : Int) (i j : Nat), i ≤ j → j < l.length →
      (limiterStartsFrom minTime earliest l).getD i 0 + ((j - i : Nat) : Int) * minTime
        ≤ (limiterStartsFrom minTime earliest l).getD j 0 := by
  intro l
  induction l with
  | nil =>
    intro earliest i j hij hj
    simp at hj
  | cons s rest ih =>
    intro earliest i j hij hj
    cases i with
    | zero =>
      cases j with
      | zero => simp
      | succ j' =>
        have h := limiterStartsFrom_lower minTime rest (max s earliest + minTime) j' (by
          simp only [List.length_cons] at hj
          omega)
        simp only [limiterStartsFrom, List.getD_cons_zero, List.getD_cons_succ,
          Nat.sub_zero]
        have hcast : ((j' + 1 : Nat) : Int) = (j' : Int) + 1 := by push_cast; ring
        rw [hcast]
        nlinarith [h]
    | succ i' =>
      cases j with
      | zero => omega
      | succ j' =>
        have h := ih (max s earliest + minTime) i' j' (by omega) (by
          simp only [List.length_cons] at hj
          omega)
        simpa [limiterStartsFrom, List.getD_cons_succ, Nat.succ_sub_succ] using h

/-- Claim C8 (confirmed; the limiter itself is the external Bottleneck
library, modelled from the spec contract §4.1 with the configuration the
source passes it: FIFO, `maxConcurrent: 1`, `minTime =
MIN_REQUEST_INTERVAL`): for any FIFO queue of submitted tasks, the `j`-th
task starts at least `(j - i) × MIN_REQUEST_INTERVAL` after the `i`-th; in
particular no two tasks start less than 200 ms apart, and the 10th of 10
tasks starts at least `9 × 200` ms after the 1st. -/
theorem rate_ceiling (subs : List Int) (i j : Nat) (hij : i ≤ j) (hj : j < subs.length) :
    (limiterSchedule KOLADA_CONFIG.MIN_REQUEST_INTERVAL subs).getD i 0
        + ((j - i : Nat) : Int) * KOLADA_CONFIG.MIN_REQUEST_INTERVAL
      ≤ (limiterSchedule KOLADA_CONFIG.MIN_REQUEST_INTERVAL subs).getD j 0 := by
  cases subs with
  | nil => simp at hj
  | cons s rest =>
    have hsched : limiterSchedule KOLADA_CONFIG.MIN_REQUEST_INTERVAL (s :: rest)
        = limiterStartsFrom KOLADA_CONFIG.MIN_REQUEST_INTERVAL s (s :: rest) := by
      simp [limiterSchedule, limiterStartsFrom, max_self]
    rw [hsched]
    exact limiterStartsFrom_gap KOLADA_CONFIG.MIN_REQUEST_INTERVAL (s :: rest) s i j hij hj

/-- Witness for C8: 10 tasks all submitted at time 0 — the 10th starts at
least `9 × 200` ms after the 1st. -/
theorem rate_ceiling_witness :
    (limiterSchedule KOLADA_CONFIG.MIN_REQUEST_INTERVAL (List.replicate 10 0)).getD 0 0
        + (9 : Int) * KOLADA_CONFIG.MIN_REQUEST_INTERVAL
      ≤ (limiterSchedule KOLADA_CONFIG.MIN_REQUEST_INTERVAL (List.replicate 10 0)).getD 9 0 := by
  have h := rate_ceiling (List.replicate 10 0) 0 9 (by decide) (by decide)
  simpa using h
